import Mathlib

/-!
# Verification of the `PrayTimes` engine (`prayer_times.py`)

Shallow embedding of the prayer-time calculation engine bundled with the
BitBar prayer-times script.  Conventions of the embedding:

* Python floats are modelled by `ℚ`; a possibly-NaN float is `Option ℚ`
  (`none` is NaN).  All plumbing arithmetic of the engine (`+`, `-`, `*`,
  `/` by a nonzero constant, `floor`, comparisons) is exact, so rationals
  are a faithful carrier for everything the claims are about.
* Python exceptions are modelled with `Except PyErr`.  A dictionary lookup
  of a missing key raises `KeyError`; `float(...)` of a malformed string,
  `math.asin` / `math.acos` outside `[-1, 1]` and `math.sqrt` of a negative
  number raise `ValueError`; division by zero raises `ZeroDivisionError`;
  access to an attribute that does not exist raises `AttributeError`.
* Python dictionaries with string keys are modelled as functions
  `String → Option _` (`none` = key absent). `dict.update` is `updateFun`.
* The transcendental library functions have no computable rational values,
  so their in-domain values are supplied by an `AstroModel` parameter; the
  engine's domain checks and control flow around them are embedded exactly.
-/

namespace PT

/-- Python exception kinds that the embedded code can raise. -/
inductive PyErr where
  | attributeError
  | keyError
  | valueError
  | zeroDivisionError
  deriving DecidableEq, Repr

/-- A value stored in a parameter/settings dictionary: the source puts both
numbers (`'fajr': 15`) and strings (`'isha': '90 min'`) there. -/
inductive Param where
  | num (q : ℚ)
  | str (s : String)
  deriving DecidableEq, Repr

/-- A Python float that may be NaN: `none` is NaN. -/
abbrev F := Option ℚ

/-- Float addition (NaN-propagating). -/
def fadd : F → F → F
  | some a, some b => some (a + b)
  | _, _ => none

/-- Float subtraction (NaN-propagating). -/
def fsub : F → F → F
  | some a, some b => some (a - b)
  | _, _ => none

/-- Float negation (NaN-propagating). -/
def fneg : F → F
  | some a => some (-a)
  | none => none

/-- Add a finite constant to a possibly-NaN float. -/
def faddc (a : F) (c : ℚ) : F := a.map (fun x => x + c)

/-- Subtract a finite constant from a possibly-NaN float. -/
def fsubc (a : F) (c : ℚ) : F := a.map (fun x => x - c)

/-- Divide a possibly-NaN float by two. -/
def fhalf (a : F) : F := a.map (fun x => x / 2)

/-- `a > b` on floats: any comparison with NaN is `False` in Python. -/
def fgt : F → F → Bool
  | some a, some b => decide (b < a)
  | _, _ => false

/-- `fix(a, mode)` of the source on a finite float:
`a = a - mode * floor(a / mode); return a + mode if a < 0 else a`. -/
def fixVal (a mode : ℚ) : ℚ :=
  let r := a - mode * ⌊a / mode⌋
  if r < 0 then r + mode else r

/-- `fix` of the source: NaN passes through unchanged. -/
def fix (a : F) (mode : ℚ) : F := a.map (fun x => fixVal x mode)

/-- `fixangle`: normalize an angle into `[0, 360)`. -/
def fixangle (a : F) : F := fix a 360

/-- `fixhour`: normalize an hour value into `[0, 24)`. -/
def fixhour (a : F) : F := fix a 24

/-- `time_diff(time1, time2) = fixhour(time2 - time1)`. -/
def time_diff (t1 t2 : F) : F := fixhour (fsub t2 t1)

/-- Characters kept by `re.split('[^0-9.+-]', s, 1)[0]`. -/
def isTokenChar (c : Char) : Bool := c.isDigit || c = '.' || c = '+' || c = '-'

/-- `re.split('[^0-9.+-]', s, 1)[0]`: everything before the first character
that is not a digit, dot, plus or minus. -/
def leadingToken (s : String) : String := ⟨s.data.takeWhile isTokenChar⟩

/-- Numeric value of a digit string. -/
def digitsVal (cs : List Char) : ℕ :=
  cs.foldl (fun a c => a * 10 + (c.toNat - '0'.toNat)) 0

/-- CPython `float(s)` restricted to strings over `[0-9.+-]`: an optional
sign followed by `digits`, `digits '.' digits?` or `'.' digits`; anything
else (including `"."`, `"+"`, `"--1"`, `"1.2.3"`) is rejected. -/
def pyFloat (s : String) : Option ℚ :=
  let cs := s.data
  let sgn : ℚ × List Char :=
    match cs with
    | '+' :: r => (1, r)
    | '-' :: r => (-1, r)
    | r => (1, r)
  let ip := sgn.2.takeWhile Char.isDigit
  let rest := sgn.2.dropWhile Char.isDigit
  match rest with
  | [] => if ip = [] then none else some (sgn.1 * digitsVal ip)
  | '.' :: fp =>
      if fp.all Char.isDigit && !(ip = [] && fp = []) then
        some (sgn.1 * ((digitsVal ip : ℚ) + (digitsVal fp : ℚ) / (10 ^ fp.length)))
      else none
  | _ => none

/-- `PrayTimes.eval` on a string: `val = re.split('[^0-9.+-]', str(st), 1)[0];
return float(val) if val else 0`.  `float(val)` raises `ValueError` when
`val` is non-empty but not a well-formed float literal. -/
def evalStr (s : String) : Except PyErr ℚ :=
  let val := leadingToken s
  if val = "" then .ok 0
  else
    match pyFloat val with
    | some q => .ok q
    | none => .error .valueError

/-- Specification-side model of the parameter-text parser, following the
spec's words: extract the leading numeric token, empty/unparseable → 0,
never failing. -/
def specEval (s : String) : ℚ := (pyFloat (leadingToken s)).getD 0

/-- `PrayTimes.eval` on a dictionary value: numeric parameters go through
`str(st)` and re-parse to the same number, strings are parsed directly. -/
def evalParam : Param → Except PyErr ℚ
  | .num q => .ok q
  | .str s => evalStr s

/-- `pat` is a prefix of the second list. -/
def startsWith : List Char → List Char → Bool
  | [], _ => true
  | _ :: _, [] => false
  | p :: ps, c :: cs => p = c && startsWith ps cs

/-- `pat` occurs as a contiguous substring of the second list. -/
def containsSub (pat : List Char) : List Char → Bool
  | [] => pat.isEmpty
  | c :: cs => startsWith pat (c :: cs) || containsSub pat cs

/-- `is_min(arg)`: `isinstance(arg, str) and arg.find('min') > -1`, i.e.
the value is a string containing the substring `"min"`. -/
def is_min : Param → Bool
  | .str s => containsSub "min".data s.data
  | .num _ => false

/-- The nine recognized prayer-time names, in the insertion order of the
source's `time_names` dictionary. -/
def time_names : List String :=
  ["imsak", "fajr", "sunrise", "dhuhr", "asr", "sunset", "maghrib", "isha", "midnight"]

/-- One entry of the calculation-method catalog. -/
structure MethodCfg where
  name : String
  params : String → Option Param

/-- `'MWL'` parameters. -/
def mwlParams : String → Option Param := fun k =>
  if k = "fajr" then some (.num 18) else
  if k = "isha" then some (.num 17) else none

/-- `'ISNA'` parameters. -/
def isnaParams : String → Option Param := fun k =>
  if k = "fajr" then some (.num 15) else
  if k = "isha" then some (.num 15) else none

/-- `'Egypt'` parameters. -/
def egyptParams : String → Option Param := fun k =>
  if k = "fajr" then some (.num 19.5) else
  if k = "isha" then some (.num 17.5) else none

/-- `'Makkah'` parameters. -/
def makkahParams : String → Option Param := fun k =>
  if k = "fajr" then some (.num 18.5) else
  if k = "isha" then some (.str "90 min") else none

/-- `'Karachi'` parameters. -/
def karachiParams : String → Option Param := fun k =>
  if k = "fajr" then some (.num 18) else
  if k = "isha" then some (.num 18) else none

/-- `'Tehran'` parameters. -/
def tehranParams : String → Option Param := fun k =>
  if k = "fajr" then some (.num 17.7) else
  if k = "isha" then some (.num 14) else
  if k = "maghrib" then some (.num 4.5) else
  if k = "midnight" then some (.str "Jafari") else none

/-- `'Jafari'` parameters. -/
def jafariParams : String → Option Param := fun k =>
  if k = "fajr" then some (.num 16) else
  if k = "isha" then some (.num 14) else
  if k = "maghrib" then some (.num 4) else
  if k = "midnight" then some (.str "Jafari") else none

/-- The `methods` class dictionary, before the default-merging performed by
`__init__`. -/
def methodsBase : String → Option MethodCfg := fun m =>
  if m = "MWL" then some ⟨"Muslim World League", mwlParams⟩ else
  if m = "ISNA" then some ⟨"Islamic Society of North America (ISNA)", isnaParams⟩ else
  if m = "Egypt" then some ⟨"Egyptian General Authority of Survey", egyptParams⟩ else
  if m = "Makkah" then some ⟨"Umm Al-Qura University, Makkah", makkahParams⟩ else
  if m = "Karachi" then some ⟨"University of Islamic Sciences, Karachi", karachiParams⟩ else
  if m = "Tehran" then some ⟨"Institute of Geophysics, University of Tehran", tehranParams⟩ else
  if m = "Jafari" then some ⟨"Shia Ithna-Ashari, Leva Institute, Qum", jafariParams⟩ else none

/-- `default_params = {'maghrib': '0 min', 'midnight': 'Standard'}`. -/
def default_params : String → Option Param := fun k =>
  if k = "maghrib" then some (.str "0 min") else
  if k = "midnight" then some (.str "Standard") else none

/-- Default-merging loop of `__init__`: for each default, set it on a
method's parameter dictionary only when the key is absent (no catalog
value is Python `None`, so the `is None` disjunct never fires). -/
def mergeDefaults (p : String → Option Param) : String → Option Param := fun k =>
  match p k with
  | some v => some v
  | none => default_params k

/-- The method catalog as it stands after `__init__` has merged the
defaults into every entry (the source mutates the class-level dictionary
in place). -/
def methods (m : String) : Option MethodCfg :=
  (methodsBase m).map (fun c => ⟨c.name, mergeDefaults c.params⟩)

/-- `dict.update`: entries of `u` win over entries of `d`. -/
def updateFun (d u : String → Option Param) : String → Option Param := fun k =>
  match u k with
  | some v => some v
  | none => d k

/-- The class-level `settings` dictionary (the state before the selected
method's parameters are copied in). -/
def classSettings : String → Option Param := fun k =>
  if k = "imsak" then some (.str "10 min") else
  if k = "dhuhr" then some (.str "0 min") else
  if k = "asr" then some (.str "Standard") else
  if k = "highLats" then some (.str "NightMiddle") else none

/-- Instance state of a `PrayTimes` object.  `lat`, `lng`, `elv`,
`timeZone` and `jDate` are only assigned by `get_times`; they carry zero
defaults here. -/
structure PrayState where
  calc_method : String
  settings : String → Option Param
  offset : String → Option ℚ
  time_format : String
  lat : ℚ
  lng : ℚ
  elv : ℚ
  timeZone : ℚ
  jDate : ℚ

/-- `invalid_time = '-----'`. -/
def invalid_time : String := "-----"

/-- `__init__(method)`: fall back to `'ISNA'` for unknown identifiers, copy
the (default-merged) method parameters over the class settings, and zero
out the offset of every recognized time name. -/
def initState (method : String) : PrayState :=
  let cm := if (methods method).isSome then method else "ISNA"
  let cfg := (methods cm).getD ⟨"", fun _ => none⟩
  { calc_method := cm
    settings := updateFun classSettings cfg.params
    offset := fun k => if k ∈ time_names then some 0 else none
    time_format := "24h"
    lat := 0, lng := 0, elv := 0, timeZone := 0, jDate := 0 }

/-- `adjust(params)`: `self.settings.update(params)`. -/
def adjust (st : PrayState) (params : String → Option Param) : PrayState :=
  { st with settings := updateFun st.settings params }

/-- `set_method(method)`: for a registered name the body executes
`self.adjust(self.methods[method].params)`, but `self.methods[method]` is a
`dict` and attribute access `.params` on a `dict` raises `AttributeError`
in CPython, before `self.calc_method` is assigned; for an unregistered name
the body is skipped, a no-op. -/
def set_method (st : PrayState) (method : String) : Except PyErr PrayState :=
  if (methods method).isSome then .error .attributeError else .ok st

/-- `tune(timeOffsets)`: the body is `self.offsets.update(timeOffsets)`,
but neither the class nor the instance defines an attribute `offsets` (the
offset dictionary is named `offset`), so CPython raises `AttributeError`
regardless of the argument. -/
def tune (_st : PrayState) (_timeOffsets : String → Option ℚ) : Except PyErr PrayState :=
  .error .attributeError

/-- In-domain values of the transcendental library functions used by the
engine.  `sinD`, `cosD`, `tanD` are the degree-argument trig helpers;
`asinD`, `acosD`, `atanD`, `atan2D` are the inverse helpers returning
degrees; `sqrtQ` is `math.sqrt`.  The engine's own domain checks (and the
exceptions CPython raises on violations) are embedded in the definitions
below, not in the model. -/
structure AstroModel where
  sinD : ℚ → ℚ
  cosD : ℚ → ℚ
  tanD : ℚ → ℚ
  asinD : ℚ → ℚ
  acosD : ℚ → ℚ
  atanD : ℚ → ℚ
  atan2D : ℚ → ℚ → ℚ
  sqrtQ : ℚ → ℚ

/-- `arcsin(x) = degrees(math.asin(x))`: CPython's `math.asin` raises
`ValueError` when `x` is outside `[-1, 1]`. -/
def arcsin (M : AstroModel) (x : ℚ) : Except PyErr ℚ :=
  if 1 < |x| then .error .valueError else .ok (M.asinD x)

/-- `arccos(x) = degrees(math.acos(x))`: CPython's `math.acos` raises
`ValueError` when `x` is outside `[-1, 1]`. -/
def arccos (M : AstroModel) (x : ℚ) : Except PyErr ℚ :=
  if 1 < |x| then .error .valueError else .ok (M.acosD x)

/-- `arccot(x) = degrees(math.atan(1.0 / x))`: `1.0 / 0.0` raises
`ZeroDivisionError`. -/
def arccot (M : AstroModel) (x : ℚ) : Except PyErr ℚ :=
  if x = 0 then .error .zeroDivisionError else .ok (M.atanD (1 / x))

/-- `sun_position(jd)`: declination and equation of time from the USNO
approximation.  The finite-float `fixangle`/`fixhour` calls are `fixVal`;
the final `arcsin` can raise `ValueError` when the model violates the real
trig bound `|sin e * sin L| ≤ 1`. -/
def sun_position (M : AstroModel) (jd : ℚ) : Except PyErr (ℚ × ℚ) :=
  let D := jd - 2451545
  let g := fixVal (357.529 + 0.98560028 * D) 360
  let q := fixVal (280.459 + 0.98564736 * D) 360
  let L := fixVal (q + 1.915 * M.sinD g + 0.020 * M.sinD (2 * g)) 360
  let e := 23.439 - 0.00000036 * D
  let RA := M.atan2D (M.cosD e * M.sinD L) (M.cosD L) / 15
  let eqt := q / 15 - fixVal RA 24
  match arcsin M (M.sinD e * M.sinD L) with
  | .error er => .error er
  | .ok decl => .ok (decl, eqt)

/-- `mid_day(time) = fixhour(12 - eqt)` where `eqt` comes from
`sun_position(jDate + time)`. -/
def mid_day (M : AstroModel) (st : PrayState) (time : ℚ) : Except PyErr ℚ :=
  match sun_position M (st.jDate + time) with
  | .error e => .error e
  | .ok dq => .ok (fixVal (12 - dq.2) 24)

/-- Body of `sun_angle_time` (the part inside the `try`): solves the
hour-angle equation.  A zero denominator raises `ZeroDivisionError` (which
the `except ValueError` handler does not catch); an arccos argument outside
`[-1, 1]` raises `ValueError`. -/
def sun_angle_time_go (M : AstroModel) (st : PrayState) (angle time : ℚ)
    (direction : Option String) : Except PyErr ℚ :=
  match sun_position M (st.jDate + time) with
  | .error e => .error e
  | .ok dq =>
    match mid_day M st time with
    | .error e => .error e
    | .ok noon =>
      if M.cosD dq.1 * M.cosD st.lat = 0 then .error .zeroDivisionError
      else
        let arg := (-(M.sinD angle) - M.sinD dq.1 * M.sinD st.lat) /
          (M.cosD dq.1 * M.cosD st.lat)
        match arccos M arg with
        | .error e => .error e
        | .ok h =>
          let t := 1 / 15 * h
          .ok (noon + (if direction = some "ccw" then -t else t))

/-- `sun_angle_time(angle, time, direction)`: the whole body runs inside
`try: ... except ValueError: return float('nan')`, so a `ValueError`
(raised by `arccos`, or by `arcsin` inside `sun_position`) becomes NaN
while any other exception propagates. -/
def sun_angle_time (M : AstroModel) (st : PrayState) (angle time : ℚ)
    (direction : Option String) : Except PyErr F :=
  match sun_angle_time_go M st angle time direction with
  | .ok v => .ok (some v)
  | .error .valueError => .ok none
  | .error e => .error e

/-- `asr_time(factor, time)`: its own `sun_position` call is outside any
`try`, so a `ValueError` there propagates; the final crossing is solved by
`sun_angle_time` with `direction=None`. -/
def asr_time (M : AstroModel) (st : PrayState) (factor time : ℚ) : Except PyErr F :=
  match sun_position M (st.jDate + time) with
  | .error e => .error e
  | .ok dq =>
    match arccot M (factor + M.tanD |st.lat - dq.1|) with
    | .error e => .error e
    | .ok ac => sun_angle_time M st (-ac) time none

/-- `rise_set_angle(elevation) = 0.833 + 0.0347 * sqrt(elevation)`:
`math.sqrt` raises `ValueError` on a negative argument. -/
def rise_set_angle (M : AstroModel) (elevation : ℚ) : Except PyErr ℚ :=
  if elevation < 0 then .error .valueError
  else .ok (0.833 + 0.0347 * M.sqrtQ elevation)

/-- `asr_factor(asrParam)`: `'Standard' → 1`, `'Hanafi' → 2`, anything else
is fed to `eval`. -/
def asr_factor (p : Param) : Except PyErr ℚ :=
  match p with
  | .str "Standard" => .ok 1
  | .str "Hanafi" => .ok 2
  | _ => evalParam p

/-- `julian(year, month, day)` (Meeus).  `math.floor` of a true division
is `Int.floor` over `ℚ`. -/
def julian (year month : ℤ) (day : ℚ) : ℚ :=
  let ym : ℤ × ℤ := if month ≤ 2 then (year - 1, month + 12) else (year, month)
  let A : ℤ := ⌊(ym.1 : ℚ) / 100⌋
  let B : ℤ := 2 - A + ⌊(A : ℚ) / 4⌋
  ((⌊(365.25 : ℚ) * ((ym.1 : ℚ) + 4716)⌋ : ℤ) : ℚ) +
    ((⌊(30.6001 : ℚ) * ((ym.2 : ℚ) + 1)⌋ : ℤ) : ℚ) + day + (B : ℚ) - 1524.5

/-- The eight base times while still plain (finite) numbers: the seed of
`compute_times` and the input of `compute_prayer_times`. -/
structure Times8Q where
  imsak : ℚ
  fajr : ℚ
  sunrise : ℚ
  dhuhr : ℚ
  asr : ℚ
  sunset : ℚ
  maghrib : ℚ
  isha : ℚ
  deriving DecidableEq, Repr

/-- The eight base times as possibly-NaN floats, the currency of the
adjustment pipeline (midnight is not present yet). -/
structure Times8 where
  imsak : F
  fajr : F
  sunrise : F
  dhuhr : F
  asr : F
  sunset : F
  maghrib : F
  isha : F
  deriving DecidableEq, Repr

/-- All nine times, after midnight has been derived. -/
structure Times9 where
  imsak : F
  fajr : F
  sunrise : F
  dhuhr : F
  asr : F
  sunset : F
  maghrib : F
  isha : F
  midnight : F
  deriving DecidableEq, Repr

/-- What `get_formatted_time` returns: the `'Float'` format passes the raw
number through, every other format produces a string. -/
inductive TimeOut where
  | raw (q : ℚ)
  | text (s : String)
  deriving DecidableEq, Repr

/-- The formatted output dictionary. -/
structure Times9Out where
  imsak : TimeOut
  fajr : TimeOut
  sunrise : TimeOut
  dhuhr : TimeOut
  asr : TimeOut
  sunset : TimeOut
  maghrib : TimeOut
  isha : TimeOut
  midnight : TimeOut
  deriving DecidableEq, Repr

/-- Apply a function to all eight entries. -/
def mapTimes8 (f : F → F) (t : Times8) : Times8 :=
  ⟨f t.imsak, f t.fajr, f t.sunrise, f t.dhuhr, f t.asr, f t.sunset, f t.maghrib, f t.isha⟩

/-- Initial guesses of `compute_times`. -/
def seedTimes : Times8Q := ⟨5, 5, 6, 12, 13, 18, 18, 18⟩

/-- `day_portion(times)`: divide every entry by 24. -/
def day_portion (t : Times8Q) : Times8Q :=
  ⟨t.imsak / 24, t.fajr / 24, t.sunrise / 24, t.dhuhr / 24,
   t.asr / 24, t.sunset / 24, t.maghrib / 24, t.isha / 24⟩

/-- `compute_prayer_times(times)`: one pass of the solver over the eight
base times.  Dictionary lookups on `settings` raise `KeyError` when the
key is missing; `eval` and the solvers may raise as embedded above. -/
def compute_prayer_times (M : AstroModel) (st : PrayState) (t0 : Times8Q) :
    Except PyErr Times8 :=
  let times := day_portion t0
  match st.settings "imsak" with
  | none => .error .keyError
  | some pImsak =>
  match evalParam pImsak with
  | .error e => .error e
  | .ok vImsak =>
  match sun_angle_time M st vImsak times.imsak (some "ccw") with
  | .error e => .error e
  | .ok imsak =>
  match st.settings "fajr" with
  | none => .error .keyError
  | some pFajr =>
  match evalParam pFajr with
  | .error e => .error e
  | .ok vFajr =>
  match sun_angle_time M st vFajr times.fajr (some "ccw") with
  | .error e => .error e
  | .ok fajr =>
  match rise_set_angle M st.elv with
  | .error e => .error e
  | .ok rsa =>
  match sun_angle_time M st rsa times.sunrise (some "ccw") with
  | .error e => .error e
  | .ok sunrise =>
  match mid_day M st times.dhuhr with
  | .error e => .error e
  | .ok dhuhr =>
  match st.settings "asr" with
  | none => .error .keyError
  | some pAsr =>
  match asr_factor pAsr with
  | .error e => .error e
  | .ok fac =>
  match asr_time M st fac times.asr with
  | .error e => .error e
  | .ok asr =>
  match sun_angle_time M st rsa times.sunset none with
  | .error e => .error e
  | .ok sunset =>
  match st.settings "maghrib" with
  | none => .error .keyError
  | some pMaghrib =>
  match evalParam pMaghrib with
  | .error e => .error e
  | .ok vMaghrib =>
  match sun_angle_time M st vMaghrib times.maghrib none with
  | .error e => .error e
  | .ok maghrib =>
  match st.settings "isha" with
  | none => .error .keyError
  | some pIsha =>
  match evalParam pIsha with
  | .error e => .error e
  | .ok vIsha =>
  match sun_angle_time M st vIsha times.isha none with
  | .error e => .error e
  | .ok isha =>
    .ok ⟨imsak, fajr, sunrise, some dhuhr, asr, sunset, maghrib, isha⟩

/-- `night_portion(angle, night)`: fraction of the night length given by
the active `highLats` rule (`'AngleBased'`: `angle/60`, `'OneSeventh'`:
`1/7`, otherwise `1/2`); re-reads `settings['highLats']`. -/
def night_portion (st : PrayState) (angle : ℚ) (night : F) : Except PyErr F :=
  match st.settings "highLats" with
  | none => .error .keyError
  | some m =>
    let portion : ℚ :=
      if m = Param.str "AngleBased" then 1 / 60 * angle
      else if m = Param.str "OneSeventh" then 1 / 7
      else 1 / 2
    .ok (night.map (fun n => portion * n))

/-- `adjust_HL_time(time, base, angle, night, direction)`: clamp `time` to
`base ± portion` when it is NaN or farther from the anchor than the night
portion (a comparison against NaN is `False`). -/
def adjust_HL_time (st : PrayState) (time base : F) (angle : ℚ) (night : F)
    (direction : Option String) : Except PyErr F :=
  match night_portion st angle night with
  | .error e => .error e
  | .ok portion =>
    let ccw := direction = some "ccw"
    let diff := if ccw then time_diff time base else time_diff base time
    .ok (if time = none || fgt diff portion then
           fadd base (if ccw then fneg portion else portion)
         else time)

/-- `adjust_high_lats(times)`: correct imsak/fajr (anchored to sunrise,
morning direction) and isha/maghrib (anchored to sunset); the night length
and all anchors are read before any entry is overwritten, and sunrise and
sunset themselves are never reassigned. -/
def adjust_high_lats (st : PrayState) (t : Times8) : Except PyErr Times8 :=
  let night := time_diff t.sunset t.sunrise
  match st.settings "imsak" with
  | none => .error .keyError
  | some p1 =>
  match evalParam p1 with
  | .error e => .error e
  | .ok v1 =>
  match adjust_HL_time st t.imsak t.sunrise v1 night (some "ccw") with
  | .error e => .error e
  | .ok imsak2 =>
  match st.settings "fajr" with
  | none => .error .keyError
  | some p2 =>
  match evalParam p2 with
  | .error e => .error e
  | .ok v2 =>
  match adjust_HL_time st t.fajr t.sunrise v2 night (some "ccw") with
  | .error e => .error e
  | .ok fajr2 =>
  match st.settings "isha" with
  | none => .error .keyError
  | some p3 =>
  match evalParam p3 with
  | .error e => .error e
  | .ok v3 =>
  match adjust_HL_time st t.isha t.sunset v3 night none with
  | .error e => .error e
  | .ok isha2 =>
  match st.settings "maghrib" with
  | none => .error .keyError
  | some p4 =>
  match evalParam p4 with
  | .error e => .error e
  | .ok v4 =>
  match adjust_HL_time st t.maghrib t.sunset v4 night none with
  | .error e => .error e
  | .ok maghrib2 =>
    .ok { t with imsak := imsak2, fajr := fajr2, isha := isha2, maghrib := maghrib2 }

/-- Last statement of the minute-offset stage:
`times['dhuhr'] += self.eval(params['dhuhr']) / 60.0`. -/
def mos_dhuhr (st : PrayState) (t : Times8) : Except PyErr Times8 :=
  match st.settings "dhuhr" with
  | none => .error .keyError
  | some p =>
    match evalParam p with
    | .error e => .error e
    | .ok v => .ok { t with dhuhr := faddc t.dhuhr (v / 60) }

/-- Third statement of the minute-offset stage: when the isha parameter is
a minute offset, re-anchor isha to the (already updated) maghrib. -/
def mos_isha (st : PrayState) (t : Times8) : Except PyErr Times8 :=
  match st.settings "isha" with
  | none => .error .keyError
  | some p =>
    if is_min p then
      match evalParam p with
      | .error e => .error e
      | .ok v => mos_dhuhr st { t with isha := fsubc t.maghrib (v / 60) }
    else mos_dhuhr st t

/-- Second statement of the minute-offset stage: when the maghrib
parameter is a minute offset, re-anchor maghrib to sunset. -/
def mos_maghrib (st : PrayState) (t : Times8) : Except PyErr Times8 :=
  match st.settings "maghrib" with
  | none => .error .keyError
  | some p =>
    if is_min p then
      match evalParam p with
      | .error e => .error e
      | .ok v => mos_isha st { t with maghrib := fsubc t.sunset (v / 60) }
    else mos_isha st t

/-- The minute-offset application stage of `adjust_times` (its last four
statements, run in source order): when the imsak, maghrib or isha
parameter is a `'... min'` string, override that time from its anchor
(fajr, sunset, and the already-updated maghrib respectively); dhuhr always
receives `eval(params['dhuhr']) / 60`. -/
def minute_offset_stage (st : PrayState) (t : Times8) : Except PyErr Times8 :=
  match st.settings "imsak" with
  | none => .error .keyError
  | some p =>
    if is_min p then
      match evalParam p with
      | .error e => .error e
      | .ok v => mos_maghrib st { t with imsak := fsubc t.fajr (v / 60) }
    else mos_maghrib st t

/-- `adjust_times(times)`: add the timezone shift to every entry, run the
high-latitude adjustment unless the rule is `'None'`, then apply the
minute-offset stage. -/
def adjust_times (st : PrayState) (t : Times8) : Except PyErr Times8 :=
  let tzAdjust := st.timeZone - st.lng / 15
  let t0 := mapTimes8 (fun x => faddc x tzAdjust) t
  match st.settings "highLats" with
  | none => .error .keyError
  | some hl =>
    if hl ≠ Param.str "None" then
      match adjust_high_lats st t0 with
      | .error e => .error e
      | .ok t1 => minute_offset_stage st t1
    else minute_offset_stage st t0

/-- `tune_times(times)`: add `offset[name] / 60` to every entry; a missing
offset key would raise `KeyError`. -/
def tune_times (st : PrayState) (t : Times9) : Except PyErr Times9 :=
  match st.offset "imsak", st.offset "fajr", st.offset "sunrise",
        st.offset "dhuhr", st.offset "asr", st.offset "sunset",
        st.offset "maghrib", st.offset "isha", st.offset "midnight" with
  | some o1, some o2, some o3, some o4, some o5, some o6, some o7, some o8, some o9 =>
      .ok ⟨faddc t.imsak (o1 / 60), faddc t.fajr (o2 / 60), faddc t.sunrise (o3 / 60),
           faddc t.dhuhr (o4 / 60), faddc t.asr (o5 / 60), faddc t.sunset (o6 / 60),
           faddc t.maghrib (o7 / 60), faddc t.isha (o8 / 60), faddc t.midnight (o9 / 60)⟩
  | _, _, _, _, _, _, _, _, _ => .error .keyError

/-- `"%02d"` of an integer. -/
def pad2 (n : ℤ) : String :=
  if 0 ≤ n ∧ n < 10 then "0" ++ toString n else toString n

/-- `get_formatted_time(time, format)` with the default suffix list:
NaN becomes the invalid-time sentinel before any format dispatch, the
`'Float'` format returns the raw number, otherwise the time is rounded up
by half a minute, normalized into `[0, 24)` and rendered. -/
def get_formatted_time (time : F) (format : String) : TimeOut :=
  match time with
  | none => .text invalid_time
  | some t0 =>
    if format = "Float" then .raw t0
    else
      let t := fixVal (t0 + 1 / 120) 24
      let hours : ℤ := ⌊t⌋
      let minutes : ℤ := ⌊(t - (hours : ℚ)) * 60⌋
      let suffix := if format = "12h" then (if hours < 12 then "am" else "pm") else ""
      let body :=
        if format = "24h" then pad2 hours ++ ":" ++ pad2 minutes
        else toString ((hours + 11) % 12 + 1) ++ ":" ++ pad2 minutes
      .text (body ++ suffix)

/-- `modify_formats(times)`: format every entry with the instance's
`time_format`. -/
def modify_formats (fmt : String) (t : Times9) : Times9Out :=
  ⟨get_formatted_time t.imsak fmt, get_formatted_time t.fajr fmt,
   get_formatted_time t.sunrise fmt, get_formatted_time t.dhuhr fmt,
   get_formatted_time t.asr fmt, get_formatted_time t.sunset fmt,
   get_formatted_time t.maghrib fmt, get_formatted_time t.isha fmt,
   get_formatted_time t.midnight fmt⟩

/-- Tail of `compute_times` after the solver pass: `adjust_times`, the
midnight derivation (`'Jafari'`: half of sunset→fajr, otherwise half of
sunset→sunrise), `tune_times` and `modify_formats`. -/
def post_compute (st : PrayState) (t8 : Times8) : Except PyErr Times9Out :=
  match adjust_times st t8 with
  | .error e => .error e
  | .ok t =>
  match st.settings "midnight" with
  | none => .error .keyError
  | some mid =>
    let midnight :=
      if mid = Param.str "Jafari" then
        fadd t.sunset (fhalf (time_diff t.sunset t.fajr))
      else
        fadd t.sunset (fhalf (time_diff t.sunset t.sunrise))
    let t9 : Times9 := ⟨t.imsak, t.fajr, t.sunrise, t.dhuhr, t.asr, t.sunset,
      t.maghrib, t.isha, midnight⟩
    match tune_times st t9 with
    | .error e => .error e
    | .ok t9b => .ok (modify_formats st.time_format t9b)

/-- `compute_times()`: one solver pass over the seed (`num_iterations` is
the class constant `1`, so the `for i in range(...)` loop runs exactly
once), followed by the adjustment/formatting tail. -/
def compute_times (M : AstroModel) (st : PrayState) : Except PyErr Times9Out :=
  match compute_prayer_times M st seedTimes with
  | .error e => .error e
  | .ok t => post_compute st t

/-- A `(year, month, day)` date tuple. -/
structure DateT where
  year : ℤ
  month : ℤ
  day : ℚ

/-- `get_times(date, coords, timezone, dst, format)`: stores the
coordinates, the elevation (0 when the tuple has no third component), the
format (only when one is given — the assignment is to the instance and
persists), the dst-shifted timezone and the longitude-corrected Julian
date on the instance, then computes.  Returns the mutated instance state
alongside the result. -/
def get_times (M : AstroModel) (st : PrayState) (date : DateT)
    (coords : ℚ × ℚ × Option ℚ) (timezone : ℚ) (dst : Bool)
    (format : Option String) : PrayState × Except PyErr Times9Out :=
  let st1 : PrayState :=
    { st with
      lat := coords.1
      lng := coords.2.1
      elv := (coords.2.2).getD 0
      time_format := match format with | some f => f | none => st.time_format
      timeZone := timezone + (if dst then 1 else 0)
      jDate := julian date.year date.month date.day - coords.2.1 / (15 * 24) }
  (st1, compute_times M st1)

/-- A concrete trig model describing a polar day/night: the sine of every
angle is `1` and the cosine `1/10`, so the hour-angle equation's arccos
argument is `(-1 - 1) / (1/100) = -200`, far outside `[-1, 1]` — the sun
never reaches any of the requested angles. -/
def polarModel : AstroModel :=
  ⟨fun _ => 1, fun _ => 1 / 10, fun _ => 1, fun _ => 66, fun _ => 60,
   fun _ => 45, fun _ _ => 45, fun _ => 0⟩

/-- A freshly constructed ISNA engine placed at latitude 80° on Julian day
2451545 (the `highLats` rule is the default `'NightMiddle'`). -/
def polarState : PrayState :=
  { initState "ISNA" with lat := 80, jDate := 2451545 }

/-- A concrete trig model with constant in-domain values, used to exercise
`sun_angle_time` at an input where the arccos argument is `-3`. -/
def constModel : AstroModel :=
  ⟨fun _ => 1 / 2, fun _ => 1 / 2, fun _ => 1, fun _ => 30, fun _ => 60,
   fun _ => 45, fun _ _ => 45, fun _ => 0⟩

/-- A freshly constructed ISNA engine at latitude 7° on Julian day 2451545. -/
def constState : PrayState :=
  { initState "ISNA" with lat := 7, jDate := 2451545 }

/-- Eight NaN base times: what the solver pass produces when no sun-angle
equation has a solution. -/
def noneTimes8 : Times8 := ⟨none, none, none, none, none, none, none, none⟩

/-- The all-sentinel formatted output. -/
def allInvalidOut : Times9Out :=
  ⟨.text invalid_time, .text invalid_time, .text invalid_time, .text invalid_time,
   .text invalid_time, .text invalid_time, .text invalid_time, .text invalid_time,
   .text invalid_time⟩

/-- A distinguishable set of finite base times. -/
def oneTwoTimes : Times8 :=
  ⟨some 1, some 2, some 3, some 4, some 5, some 6, some 7, some 8⟩

/-- The eight parameter names the spec calls recognized. -/
def recognizedParams : List String :=
  ["imsak", "fajr", "isha", "maghrib", "midnight", "dhuhr", "asr", "highLats"]

/-! ## Helper lemmas -/

theorem fixVal_bounds (a m : ℚ) (hm : 0 < m) : 0 ≤ fixVal a m ∧ fixVal a m < m := by
  have hne : m ≠ 0 := ne_of_gt hm
  have hfl : ((⌊a / m⌋ : ℤ) : ℚ) ≤ a / m := Int.floor_le _
  have hfu : a / m < (⌊a / m⌋ : ℚ) + 1 := Int.lt_floor_add_one _
  have hma : m * (a / m) = a := by field_simp
  have h3 : m * ((⌊a / m⌋ : ℤ) : ℚ) ≤ m * (a / m) := mul_le_mul_of_nonneg_left hfl hm.le
  have h4 : m * (a / m) < m * ((⌊a / m⌋ : ℚ) + 1) := (mul_lt_mul_left hm).mpr hfu
  have h1 : 0 ≤ a - m * ((⌊a / m⌋ : ℤ) : ℚ) := by rw [hma] at h3; linarith
  have h2 : a - m * ((⌊a / m⌋ : ℤ) : ℚ) < m := by
    rw [hma] at h4
    have : m * ((⌊a / m⌋ : ℚ) + 1) = m * (⌊a / m⌋ : ℚ) + m := by ring
    rw [this] at h4
    linarith
  simp only [fixVal]
  rw [if_neg (not_lt.mpr h1)]
  exact ⟨h1, h2⟩

theorem fixVal_fixed (a m : ℚ) (hm : 0 < m) (h0 : 0 ≤ a) (h1 : a < m) :
    fixVal a m = a := by
  have hz : ⌊a / m⌋ = 0 := by
    rw [Int.floor_eq_zero_iff]
    exact Set.mem_Ico.mpr ⟨div_nonneg h0 hm.le, (div_lt_one hm).mpr h1⟩
  simp only [fixVal, hz, Int.cast_zero, mul_zero, sub_zero]
  exact if_neg (not_lt.mpr h0)

theorem mos_dhuhr_sunfix (st : PrayState) (t t2 : Times8) (h : mos_dhuhr st t = .ok t2) :
    t2.sunrise = t.sunrise ∧ t2.sunset = t.sunset := by
  unfold mos_dhuhr at h
  split at h
  · exact Except.noConfusion h
  · split at h
    · exact Except.noConfusion h
    · injection h with h2
      subst h2
      exact ⟨rfl, rfl⟩

theorem mos_isha_sunfix (st : PrayState) (t t2 : Times8) (h : mos_isha st t = .ok t2) :
    t2.sunrise = t.sunrise ∧ t2.sunset = t.sunset := by
  unfold mos_isha at h
  split at h
  · exact Except.noConfusion h
  · split at h
    · split at h
      · exact Except.noConfusion h
      · have hx := mos_dhuhr_sunfix st _ t2 h
        exact hx
    · exact mos_dhuhr_sunfix st t t2 h

theorem mos_maghrib_sunfix (st : PrayState) (t t2 : Times8) (h : mos_maghrib st t = .ok t2) :
    t2.sunrise = t.sunrise ∧ t2.sunset = t.sunset := by
  unfold mos_maghrib at h
  split at h
  · exact Except.noConfusion h
  · split at h
    · split at h
      · exact Except.noConfusion h
      · have hx := mos_isha_sunfix st _ t2 h
        exact hx
    · exact mos_isha_sunfix st t t2 h

theorem minute_offset_stage_sunfix (st : PrayState) (t t2 : Times8)
    (h : minute_offset_stage st t = .ok t2) :
    t2.sunrise = t.sunrise ∧ t2.sunset = t.sunset := by
  unfold minute_offset_stage at h
  split at h
  · exact Except.noConfusion h
  · split at h
    · split at h
      · exact Except.noConfusion h
      · have hx := mos_maghrib_sunfix st _ t2 h
        exact hx
    · exact mos_maghrib_sunfix st t t2 h

theorem adjust_high_lats_sunfix (st : PrayState) (t t2 : Times8)
    (h : adjust_high_lats st t = .ok t2) :
    t2.sunrise = t.sunrise ∧ t2.sunset = t.sunset := by
  simp only [adjust_high_lats] at h
  repeat' split at h
  all_goals first
    | exact Except.noConfusion h
    | (injection h with h2; subst h2; exact ⟨rfl, rfl⟩)

theorem adjust_times_keeps_none (st : PrayState) (t t1 : Times8)
    (h : adjust_times st t = .ok t1) (hr : t.sunrise = none) (hs : t.sunset = none) :
    t1.sunrise = none ∧ t1.sunset = none := by
  simp only [adjust_times] at h
  have h0r : (mapTimes8 (fun x => faddc x (st.timeZone - st.lng / 15)) t).sunrise = none := by
    simp [mapTimes8, faddc, hr]
  have h0s : (mapTimes8 (fun x => faddc x (st.timeZone - st.lng / 15)) t).sunset = none := by
    simp [mapTimes8, faddc, hs]
  split at h
  · exact Except.noConfusion h
  · split at h
    · split at h
      · exact Except.noConfusion h
      · rename_i ta hta
        have he := adjust_high_lats_sunfix st _ ta hta
        have hf := minute_offset_stage_sunfix st ta t1 h
        exact ⟨by rw [hf.1, he.1, h0r], by rw [hf.2, he.2, h0s]⟩
    · have hf := minute_offset_stage_sunfix st _ t1 h
      exact ⟨by rw [hf.1, h0r], by rw [hf.2, h0s]⟩

theorem tune_times_keeps_none (st : PrayState) (t t2 : Times9)
    (h : tune_times st t = .ok t2) (hr : t.sunrise = none) (hs : t.sunset = none) :
    t2.sunrise = none ∧ t2.sunset = none := by
  unfold tune_times at h
  repeat' split at h
  all_goals first
    | exact Except.noConfusion h
    | (injection h with h2; subst h2; exact ⟨by simp [faddc, hr], by simp [faddc, hs]⟩)

/-! ## Claim theorems -/

/-- Claim C1 (code bug): selecting a method that IS registered in the
catalog does not copy its parameters into the settings — the statement
`self.adjust(self.methods[method].params)` performs attribute access on a
`dict` and raises `AttributeError` before `calc_method` is assigned; only
the unregistered-name half of the claim (a silent no-op) holds. -/
theorem c1_set_method_known_raises :
    set_method (initState "ISNA") "MWL" = .error .attributeError ∧
    set_method (initState "ISNA") "NoSuchMethod" = .ok (initState "ISNA") :=
  ⟨rfl, rfl⟩

/-- Claim C2 (code bug): `tune` never updates the offsets and never
succeeds — its body reads `self.offsets`, an attribute that does not exist
(the dictionary is named `offset`), so every call raises
`AttributeError`. -/
theorem c2_tune_raises :
    tune (initState "ISNA") (fun k => if k = "fajr" then some 10 else none) =
      .error .attributeError :=
  rfl

/-- Claim C5 counterexample: on the input `"."` the leading token is
`"."`, which `float` rejects, so `eval` raises `ValueError` instead of
returning 0 as the spec-side parser (`specEval`) does. -/
theorem c5_counterexample :
    evalStr "." = .error .valueError ∧ specEval "." = 0 :=
  ⟨rfl, rfl⟩

/-- Claim C5 (amended): `eval` returns the numeric value of the leading
sign/digit/decimal-point token when that token is a well-formed float
literal, returns 0 when the token is empty, and raises `ValueError` when
the token is non-empty but malformed. -/
theorem c5_amended (s : String) :
    (leadingToken s = "" → evalStr s = .ok 0) ∧
    (∀ q, pyFloat (leadingToken s) = some q → evalStr s = .ok q) ∧
    (leadingToken s ≠ "" → pyFloat (leadingToken s) = none →
      evalStr s = .error .valueError) := by
  unfold evalStr
  refine ⟨fun h => by simp [h], fun q hq => ?_, fun h hn => by simp [h, hn]⟩
  by_cases h : leadingToken s = ""
  · rw [h] at hq
    exact Option.noConfusion ((rfl : pyFloat "" = none) ▸ hq)
  · simp [h, hq]

/-- Witness for C5 (amended) at the catalog value `"90 min"`. -/
theorem c5_amended_witness :
    pyFloat (leadingToken "90 min") = some 90 ∧ evalStr "90 min" = .ok 90 := by
  have h : pyFloat (leadingToken "90 min") = some 90 := by with_unfolding_all rfl
  exact ⟨h, (c5_amended "90 min").2.1 90 h⟩

/-- Claim C6 counterexample: at the out-of-domain argument 2, the
degree-domain `arcsin` and `arccos` helpers raise `ValueError` — they do
not return NaN. -/
theorem c6_counterexample :
    arcsin constModel 2 = .error .valueError ∧ arccos constModel 2 = .error .valueError :=
  ⟨rfl, rfl⟩

/-- Claim C6 (amended): for every argument of magnitude above 1 the
degree-domain `arcsin` and `arccos` helpers raise `ValueError`; the
NaN-for-no-solution behavior arises only because `sun_angle_time` catches
that exception. -/
theorem c6_amended (M : AstroModel) (x : ℚ) (h : 1 < |x|) :
    arcsin M x = .error .valueError ∧ arccos M x = .error .valueError := by
  unfold arcsin arccos
  rw [if_pos h, if_pos h]
  exact ⟨rfl, rfl⟩

/-- Witness for C6 (amended) at the argument `-5`. -/
theorem c6_amended_witness :
    1 < |(-5 : ℚ)| ∧
    arcsin polarModel (-5) = .error .valueError ∧
    arccos polarModel (-5) = .error .valueError :=
  ⟨by norm_num, (c6_amended polarModel (-5) (by norm_num)).1,
   (c6_amended polarModel (-5) (by norm_num)).2⟩

/-- Claim C9: `fixangle` normalizes every finite value into `[0, 360)` and
`fixhour` into `[0, 24)`, both are idempotent, and both pass NaN through
unchanged. -/
theorem c9_fix_normalization :
    (∀ x : ℚ, 0 ≤ fixVal x 360 ∧ fixVal x 360 < 360 ∧
      0 ≤ fixVal x 24 ∧ fixVal x 24 < 24) ∧
    (∀ a : F, fixangle (fixangle a) = fixangle a ∧ fixhour (fixhour a) = fixhour a) ∧
    fixangle none = none ∧ fixhour none = none := by
  refine ⟨fun x => ?_, fun a => ?_, rfl, rfl⟩
  · obtain ⟨h1, h2⟩ := fixVal_bounds x 360 (by norm_num)
    obtain ⟨h3, h4⟩ := fixVal_bounds x 24 (by norm_num)
    exact ⟨h1, h2, h3, h4⟩
  · cases a with
    | none => exact ⟨rfl, rfl⟩
    | some x =>
      obtain ⟨h1, h2⟩ := fixVal_bounds x 360 (by norm_num)
      obtain ⟨h3, h4⟩ := fixVal_bounds x 24 (by norm_num)
      constructor
      · show some (fixVal (fixVal x 360) 360) = some (fixVal x 360)
        rw [fixVal_fixed _ _ (by norm_num) h1 h2]
      · show some (fixVal (fixVal x 24) 24) = some (fixVal x 24)
        rw [fixVal_fixed _ _ (by norm_num) h3 h4]

/-- Claim C3 counterexample: with the high-latitude rule `'NightMiddle'`
active and a (model) sky in which the sunrise/sunset hour-angle equation
has no solution (arccos argument `-200`), the formatted sunrise and sunset
are still the invalid-time sentinel, not clamped fallback times — the
high-latitude adjustment never rewrites sunrise or sunset. -/
theorem c3_counterexample :
    polarState.settings "highLats" = some (.str "NightMiddle") ∧
    (compute_times polarModel polarState).map (fun o => (o.sunrise, o.sunset)) =
      .ok (.text invalid_time, .text invalid_time) := by
  constructor
  · rfl
  · with_unfolding_all rfl

/-- Claim C3 (amended): when the sunrise and sunset of the solver pass are
NaN (no real solution), the formatted sunrise and sunset entries are the
invalid-time sentinel under EVERY `highLats` rule — `adjust_high_lats`
rewrites only imsak, fajr, isha and maghrib. -/
theorem c3_amended (st : PrayState) (t : Times8) (out : Times9Out)
    (h : post_compute st t = .ok out) (hr : t.sunrise = none) (hs : t.sunset = none) :
    out.sunrise = .text invalid_time ∧ out.sunset = .text invalid_time := by
  simp only [post_compute] at h
  split at h
  · exact Except.noConfusion h
  · rename_i t1 hA
    have h1 := adjust_times_keeps_none st t t1 hA hr hs
    split at h
    · exact Except.noConfusion h
    · split at h
      · exact Except.noConfusion h
      · rename_i t9b htune
        have hnn := tune_times_keeps_none st _ t9b htune h1.1 h1.2
        injection h with h2
        subst h2
        constructor
        · show get_formatted_time t9b.sunrise st.time_format = .text invalid_time
          rw [hnn.1]
          rfl
        · show get_formatted_time t9b.sunset st.time_format = .text invalid_time
          rw [hnn.2]
          rfl

/-- Witness for C3 (amended): a fresh ISNA engine fed all-NaN base times
formats every entry as the sentinel. -/
theorem c3_amended_witness :
    post_compute (initState "ISNA") noneTimes8 = .ok allInvalidOut ∧
    noneTimes8.sunrise = none ∧ noneTimes8.sunset = none ∧
    allInvalidOut.sunrise = .text invalid_time ∧
    allInvalidOut.sunset = .text invalid_time := by
  have h : post_compute (initState "ISNA") noneTimes8 = .ok allInvalidOut := by
    with_unfolding_all rfl
  have hc := c3_amended (initState "ISNA") noneTimes8 allInvalidOut h rfl rfl
  exact ⟨h, rfl, rfl, hc.1, hc.2⟩

theorem methods_params_complete (m : String) (c : MethodCfg) (h : methods m = some c) :
    (c.params "fajr").isSome ∧ (c.params "isha").isSome ∧
    (c.params "maghrib").isSome ∧ (c.params "midnight").isSome := by
  unfold methods methodsBase at h
  split_ifs at h <;>
    simp only [Option.map_some', Option.map_none', Option.some.injEq] at h
  all_goals first
    | (subst h; exact ⟨rfl, rfl, rfl, rfl⟩)
    | exact Option.noConfusion h

/-- Claim C4 counterexample: the MWL entry of the post-merge catalog has
no `'imsak'` key — default-merging adds only `maghrib` and `midnight`, so
not every recognized parameter name is defined on every catalog method. -/
theorem c4_counterexample :
    (methods "MWL").isSome = true ∧
    (methods "MWL").bind (fun c => c.params "imsak") = none :=
  ⟨rfl, rfl⟩

/-- Claim C4 (amended): after default-merging every catalog method defines
`fajr`, `isha`, `maghrib` and `midnight` (the merge adds only the last
two); the remaining recognized names come from the class-level settings,
and the engine's lookups go through the instance `settings`, which after
construction with any method string defines all eight recognized names, so
no settings lookup hits a missing key. -/
theorem c4_amended :
    (∀ m c, methods m = some c →
      (c.params "fajr").isSome ∧ (c.params "isha").isSome ∧
      (c.params "maghrib").isSome ∧ (c.params "midnight").isSome) ∧
    (∀ method k, k ∈ recognizedParams → ((initState method).settings k).isSome) := by
  have hset : ∀ method : String, (initState method).settings = updateFun classSettings
      (((methods (if (methods method).isSome = true then method else "ISNA")).getD
        ⟨"", fun _ => none⟩).params) := fun _ => rfl
  refine ⟨methods_params_complete, fun method k hk => ?_⟩
  by_cases hm : (methods method).isSome = true
  · obtain ⟨c, hc⟩ := Option.isSome_iff_exists.mp hm
    rw [hset, if_pos hm, hc, Option.getD_some]
    have h4 := methods_params_complete method c hc
    fin_cases hk
    · cases hcp : c.params "imsak" <;> simp [updateFun, hcp, classSettings]
    · obtain ⟨v, hv⟩ := Option.isSome_iff_exists.mp h4.1
      simp [updateFun, hv]
    · obtain ⟨v, hv⟩ := Option.isSome_iff_exists.mp h4.2.1
      simp [updateFun, hv]
    · obtain ⟨v, hv⟩ := Option.isSome_iff_exists.mp h4.2.2.1
      simp [updateFun, hv]
    · obtain ⟨v, hv⟩ := Option.isSome_iff_exists.mp h4.2.2.2
      simp [updateFun, hv]
    · cases hcp : c.params "dhuhr" <;> simp [updateFun, hcp, classSettings]
    · cases hcp : c.params "asr" <;> simp [updateFun, hcp, classSettings]
    · cases hcp : c.params "highLats" <;> simp [updateFun, hcp, classSettings]
  · rw [hset, if_neg hm]
    fin_cases hk <;> rfl

/-- Witness for C4 (amended), at the Makkah method and at an unknown
method name. -/
theorem c4_amended_witness :
    methods "Makkah" =
      some ⟨"Umm Al-Qura University, Makkah", mergeDefaults makkahParams⟩ ∧
    ((mergeDefaults makkahParams) "midnight").isSome = true ∧
    ("imsak" ∈ recognizedParams) ∧
    ((initState "Nowhere").settings "imsak").isSome = true := by
  have h : methods "Makkah" =
      some ⟨"Umm Al-Qura University, Makkah", mergeDefaults makkahParams⟩ := rfl
  refine ⟨h, ?_, by simp [recognizedParams], ?_⟩
  · exact (c4_amended.1 "Makkah" _ h).2.2.2
  · exact c4_amended.2 "Nowhere" "imsak" (by simp [recognizedParams])

/-- Claim C7: whenever the hour-angle equation's arccos argument (with a
nonzero denominator) lies outside `[-1, 1]`, `sun_angle_time` returns NaN
and does not raise; otherwise it returns `midDay(t)` minus `H/15` in the
`'ccw'` direction and plus `H/15` otherwise. -/
theorem c7_sun_angle_time (M : AstroModel) (st : PrayState) (angle time : ℚ)
    (direction : Option String) (decl eqt arg : ℚ)
    (hsp : sun_position M (st.jDate + time) = .ok (decl, eqt))
    (hden : M.cosD decl * M.cosD st.lat ≠ 0)
    (harg : arg = (-(M.sinD angle) - M.sinD decl * M.sinD st.lat) /
      (M.cosD decl * M.cosD st.lat)) :
    (1 < |arg| → sun_angle_time M st angle time direction = .ok none) ∧
    (|arg| ≤ 1 → sun_angle_time M st angle time direction =
      .ok (some (fixVal (12 - eqt) 24 +
        (if direction = some "ccw" then -(1 / 15 * M.acosD arg)
         else 1 / 15 * M.acosD arg)))) := by
  subst harg
  unfold sun_angle_time sun_angle_time_go mid_day arccos
  rw [hsp]
  simp only [if_neg hden]
  constructor
  · intro h1
    simp only [if_pos h1]
  · intro h1
    simp only [if_neg (not_lt.mpr h1)]

/-- Witness for C7, at a constant trig model where the arccos argument is
`-3` (outside `[-1, 1]`): the morning fajr-style call returns NaN. -/
theorem c7_witness :
    sun_position constModel (constState.jDate + 0) = .ok (30, 235459 / 15000) ∧
    1 < |(-3 : ℚ)| ∧
    sun_angle_time constModel constState 77 0 (some "ccw") = .ok none := by
  have hsp : sun_position constModel (constState.jDate + 0) = .ok (30, 235459 / 15000) := by
    with_unfolding_all rfl
  have hden : constModel.cosD 30 * constModel.cosD constState.lat ≠ 0 := by
    show (1 / 2 : ℚ) * (1 / 2) ≠ 0
    norm_num
  have harg : (-3 : ℚ) = (-(constModel.sinD 77) - constModel.sinD 30 * constModel.sinD constState.lat) /
      (constModel.cosD 30 * constModel.cosD constState.lat) := by
    show (-3 : ℚ) = (-(1 / 2) - 1 / 2 * (1 / 2)) / (1 / 2 * (1 / 2))
    norm_num
  refine ⟨hsp, by norm_num, ?_⟩
  exact (c7_sun_angle_time constModel constState 77 0 (some "ccw") 30 (235459 / 15000) (-3)
    hsp hden harg).1 (by norm_num)

/-- Claim C8: in the minute-offset stage, an imsak minute-offset rebases
imsak on fajr, a maghrib minute-offset rebases maghrib on sunset, an isha
minute-offset rebases isha on the already-adjusted maghrib, dhuhr is
always shifted by its own parameter's minutes, and no other entry is
touched. -/
theorem c8_minute_offset_stage (st : PrayState) (t : Times8)
    (pImsak pMaghrib pIsha pDhuhr : Param) (vi vm vs vd : ℚ)
    (hI : st.settings "imsak" = some pImsak) (hvI : evalParam pImsak = .ok vi)
    (hM : st.settings "maghrib" = some pMaghrib) (hvM : evalParam pMaghrib = .ok vm)
    (hS : st.settings "isha" = some pIsha) (hvS : evalParam pIsha = .ok vs)
    (hD : st.settings "dhuhr" = some pDhuhr) (hvD : evalParam pDhuhr = .ok vd) :
    minute_offset_stage st t = .ok
      { t with
        imsak := if is_min pImsak then fsubc t.fajr (vi / 60) else t.imsak
        maghrib := if is_min pMaghrib then fsubc t.sunset (vm / 60) else t.maghrib
        isha := if is_min pIsha then
            fsubc (if is_min pMaghrib then fsubc t.sunset (vm / 60) else t.maghrib) (vs / 60)
          else t.isha
        dhuhr := faddc t.dhuhr (vd / 60) } := by
  unfold minute_offset_stage mos_maghrib mos_isha mos_dhuhr
  rw [hI, hM, hS, hD]
  cases hbI : is_min pImsak <;> cases hbM : is_min pMaghrib <;> cases hbS : is_min pIsha <;>
    simp [hbI, hbM, hbS, hvI, hvM, hvS, hvD]

/-- Witness for C8 on the fresh ISNA settings (imsak `'10 min'`, maghrib
`'0 min'`, isha `15`, dhuhr `'0 min'`) and distinguishable base times. -/
theorem c8_witness :
    (initState "ISNA").settings "imsak" = some (.str "10 min") ∧
    evalParam (.str "10 min") = .ok 10 ∧
    minute_offset_stage (initState "ISNA") oneTwoTimes =
      .ok ⟨some (11 / 6), some 2, some 3, some 4, some 5, some 6, some 6, some 8⟩ := by
  have h := c8_minute_offset_stage (initState "ISNA") oneTwoTimes
    (.str "10 min") (.str "0 min") (.num 15) (.str "0 min") 10 0 15 0
    rfl (by with_unfolding_all rfl) rfl (by with_unfolding_all rfl)
    rfl rfl rfl (by with_unfolding_all rfl)
  refine ⟨rfl, by with_unfolding_all rfl, ?_⟩
  rw [h]
  with_unfolding_all rfl

/-- Claim C10: a format passed to `get_times` is stored on the instance
(`self.time_format = format`) and is the format every later `get_times`
call without a format argument uses — the second call's result with no
format equals its result with the first call's format passed explicitly. -/
theorem c10_format_persists (M : AstroModel) (st : PrayState) (d : DateT)
    (c : ℚ × ℚ × Option ℚ) (tz : ℚ) (dst : Bool) (f : String) (d2 : DateT)
    (c2 : ℚ × ℚ × Option ℚ) (tz2 : ℚ) (dst2 : Bool) :
    ((get_times M st d c tz dst (some f)).1).time_format = f ∧
    ((get_times M (get_times M st d c tz dst (some f)).1 d2 c2 tz2 dst2 none).1).time_format
      = f ∧
    (get_times M (get_times M st d c tz dst (some f)).1 d2 c2 tz2 dst2 none).2 =
      (get_times M (get_times M st d c tz dst (some f)).1 d2 c2 tz2 dst2 (some f)).2 :=
  ⟨rfl, rfl, rfl⟩

end PT
